import Mathlib

/-!
A verification development for `src/xf-scraper.js` (xenforo-scraper).

The JavaScript source is shallowly embedded below: machine strings are `String`
(lists of characters where convenient), JS numbers that matter here are `Nat`
or `Int`, JS `undefined`/`null` are `Option`, thrown exceptions are `Except`,
and the `Date` object is modelled as minutes since an abstract epoch, so that
`setHours`/`setMinutes` overflow (rolling into later days) is reproduced.
Prototype assignment order is modelled explicitly because the source assigns
`XFPost.prototype._persistData` twice and never assigns
`XFThread.prototype._persistData`.
-/

namespace XFScraper

/-- XFPage constructor (line 37) sets `this.url = baseUrl + options.path`;
XFPage#load (lines 55-66) appends the slug `"page-" + page` when `page > 1`
and nothing for page 1. -/
def loadUrl (baseUrl relPath : String) (page : Nat) : String :=
  let url := baseUrl ++ relPath
  if page > 1 then url ++ "page-" ++ toString page else url

/-- XFPage constructor (line 38): `this.page = options.page || 1`. A missing
option and the falsy number 0 both give 1. -/
def initPage : Option Nat → Nat
  | none => 1
  | some 0 => 1
  | some (n + 1) => n + 1

/-- Lines 301-303 and 379-381 (identical in XFThread.scrape and XFForum.scrape):
`this.page = (last === undefined || this.page === last ? null : this.page + 1)`
where `last` is the PageNav data attribute of the fetched document. -/
def nextPage (page : Nat) (last : Option Nat) : Option Nat :=
  if last = none ∨ last = some page then none else some (page + 1)

/-- The fetch loop of one traversal branch: XFPage#archive (lines 80-90) loads
the current page, scrape sets `this.page` from `nextPage`, and
`_archiveNextPage` (lines 97-99) stops on `null` and otherwise re-enters
archive. `lastOf p` is the PageNav last-page attribute of the page-`p`
document; fuel bounds the recursion depth. -/
def pagesFetched : Nat → Option Nat → (Nat → Option Nat) → List Nat
  | 0, _, _ => []
  | _ + 1, none, _ => []
  | fuel + 1, some p, lastOf => p :: pagesFetched fuel (nextPage p (lastOf p)) lastOf

/-- Events of one traversal branch: a page fetch, or the completion of the
archival action of item `idx` found on page `page`. -/
inductive Ev
  | fetch (page : Nat)
  | itemDone (page : Nat) (idx : Nat)
deriving DecidableEq

/-- The page a branch event belongs to. -/
def evPage : Ev → Nat
  | .fetch p => p
  | .itemDone p _ => p

/-- Projection keeping only fetch events. -/
def fetchPageOf : Ev → Option Nat
  | .fetch p => some p
  | .itemDone _ _ => none

/-- One page cycle: XFPage#archive fetches the page, then scrape returns
`BPromise.map(items, this._archiveItem)` (lines 306 and 384), so the item
archival actions complete in some arbitrary order `order` before the promise
chain continues with `_archiveNextPage`. -/
def pageCycleEvents (p : Nat) (order : List Nat) : List Ev :=
  Ev.fetch p :: order.map (Ev.itemDone p)

/-- Event trace of one traversal branch. `orderOf p` is the completion order
of the item archival actions of page `p` (arbitrary, modelling the concurrent
`BPromise.map`); `lastOf p` is the PageNav last-page attribute of page `p`. -/
def branchTrace : Nat → Option Nat → (Nat → List Nat) → (Nat → Option Nat) → List Ev
  | 0, _, _, _ => []
  | _ + 1, none, _, _ => []
  | fuel + 1, some p, orderOf, lastOf =>
      pageCycleEvents p (orderOf p) ++ branchTrace fuel (nextPage p (lastOf p)) orderOf lastOf

/-- JS regex `\w` character class: ASCII letters, digits and underscore. -/
def isWordChar (c : Char) : Bool := c.isAlphanum || c = '_'

/-- Value of a list of decimal digit characters. -/
def digitsToNat (ds : List Char) : Nat :=
  ds.foldl (fun n c => n * 10 + (c.toNat - '0'.toNat)) 0

/-- Attempt to match the regex `(\d+):(\d+) (\w+)` (line 269) at the start of
the character list, returning the three capture groups. The quantifiers take
the maximal run, which agrees with backtracking here because a digit can never
satisfy the character that has to follow the run. -/
def matchTimeAt (cs : List Char) : Option (List Char × List Char × List Char) :=
  let s1 := cs.span Char.isDigit
  if s1.1 = [] then none else
  match s1.2 with
  | ':' :: r2 =>
    let s2 := r2.span Char.isDigit
    if s2.1 = [] then none else
    match s2.2 with
    | ' ' :: r4 =>
      let s3 := r4.span isWordChar
      if s3.1 = [] then none else some (s1.1, s2.1, s3.1)
    | _ => none
  | _ => none

/-- Leftmost match of `(\d+):(\d+) (\w+)` in the string, as
`String.prototype.match` finds it; `none` models a `null` match result. -/
def findTimeMatch : List Char → Option (List Char × List Char × List Char)
  | [] => none
  | c :: cs =>
    match matchTimeAt (c :: cs) with
    | some g => some g
    | none => findTimeMatch cs

/-- Whether `pat` occurs as a contiguous sublist. -/
def containsSub (pat : List Char) : List Char → Bool
  | [] => List.isPrefixOf pat []
  | c :: cs => List.isPrefixOf pat (c :: cs) || containsSub pat cs

/-- Case-insensitive test `/am/i.test(w)` used on the third capture group
(line 271). -/
def hasAmCI (w : List Char) : Bool :=
  containsSub (String.toList "am") (w.map Char.toLower)

/-- Line 271: `parseInt(time[1], 10) + (/am/i.test(time[3]) ? 0 : 12)`. -/
def convertHour (h : Nat) (w : List Char) : Nat :=
  h + (if hasAmCI w then 0 else 12)

/-- JS `Date#setHours(h)` on a timestamp counted in minutes: the day start is
kept, the hour field is replaced by `h` (values of 24 or more roll into later
days), and the minute field is kept. -/
def setHours (t h : Nat) : Nat := (t - t % 1440) + h * 60 + t % 60

/-- JS `Date#setMinutes(m)` on a timestamp counted in minutes. -/
def setMinutes (t m : Nat) : Nat := (t - t % 60) + m

/-- Hour field of a timestamp counted in minutes. -/
def getHours (t : Nat) : Nat := t / 60 % 24

/-- Minute field of a timestamp counted in minutes. -/
def getMinutes (t : Nat) : Nat := t % 60

/-- Lines 268-272 applied to an already-parsed base date `t0` (the value of
`new Date(rawDate[0])`, whose locale parsing is an external concern) and the
time part `rawDate[1]`: match the time regex, then set hours and minutes.
A `none` result models the thrown TypeError from indexing the `null` match. -/
def normalizeTime (t0 : Nat) (timePart : String) : Option Nat :=
  match findTimeMatch timePart.toList with
  | none => none
  | some (h, m, w) =>
      some (setMinutes (setHours t0 (convertHour (digitsToNat h) w)) (digitsToNat m))

/-- Longest leading run of decimal digits, if nonempty. -/
def leadingNat (cs : List Char) : Option Nat :=
  let ds := cs.takeWhile Char.isDigit
  if ds = [] then none else some (digitsToNat ds)

/-- JS `parseInt(s, 10)`: skip leading whitespace, accept an optional sign,
then read a decimal digit prefix; `none` models the NaN result when no digit
is found. -/
def jsParseInt (s : String) : Option Int :=
  let cs := s.toList.dropWhile Char.isWhitespace
  match cs with
  | '-' :: rest => (leadingNat rest).map (fun n => -(n : Int))
  | '+' :: rest => (leadingNat rest).map (fun n => (n : Int))
  | _ => (leadingNat cs).map (fun n => (n : Int))

/-- JS `String.prototype.replace` with a string pattern (line 281) replaces
only the first occurrence; here the replacement is the empty string. -/
def replaceFirst (pat : List Char) : List Char → List Char
  | [] => []
  | c :: cs =>
    if List.isPrefixOf pat (c :: cs) then (c :: cs).drop pat.length
    else c :: replaceFirst pat cs

/-- Text before the first occurrence of `sep`, and the remainder after it. -/
def splitAtSep (sep : List Char) : List Char → List Char × Option (List Char)
  | [] => ([], none)
  | c :: cs =>
    if List.isPrefixOf sep (c :: cs) then ([], some ((c :: cs).drop sep.length))
    else
      match splitAtSep sep cs with
      | (a, r) => (c :: a, r)

/-- Entries 0 and 1 of JS `s.split(sep)`: the part before the first `sep`,
and (when `sep` occurs) the part between the first and second `sep`. -/
def jsSplitParts (sep : List Char) (s : List Char) : List Char × Option (List Char) :=
  match splitAtSep sep s with
  | (a, none) => (a, none)
  | (a, some rest) => (a, some (splitAtSep sep rest).1)

/-- Exceptions thrown inside XFThread.scrape's message callback. -/
inductive ScrapeErr
  /-- The `.DateTime` element has no usable data attributes and no `title`
  attribute, so `.split(' at ')` is called on `undefined` (line 264). -/
  | splitOnUndefined
  /-- `rawDate[1]` is `undefined`, so `.match` is called on it (line 269). -/
  | matchOnUndefined
  /-- The time regex found no match, so `time[1]` indexes `null` (line 271). -/
  | indexOnNullMatch
deriving DecidableEq

/-- The parts of one `.message` block that XFThread.scrape reads
(lines 251-282). `Option` fields model elements or attributes that may be
absent, in which case cheerio yields `undefined`. -/
structure Message where
  /-- Text of `.dark_postrating_outputlist li > strong` (empty when absent). -/
  ratingText : String
  /-- `data-datestring` attribute of `.DateTime`. -/
  dateString : Option String
  /-- `data-timestring` attribute of `.DateTime`. -/
  timeString : Option String
  /-- `title` attribute of `.DateTime`. -/
  dateTitle : Option String
  /-- `href` of the permalink selection. -/
  permalinkHref : Option String
  /-- `data-author` attribute of the message container. -/
  author : Option String
  /-- Inner markup of the `blockquote` body. -/
  content : Option String
  /-- Text of `.postNumber` (empty when absent). -/
  postNumberText : String
deriving DecidableEq

/-- The object literal a message is mapped to (lines 275-282). `likes` and
`number` are `Option Int` where `none` models NaN. -/
structure PostData where
  permalink : Option String
  author : Option String
  date : Nat
  content : Option String
  likes : Option Int
  number : Option Int
deriving DecidableEq

/-- Fallback date source (line 264): split the `title` attribute on the
literal `" at "`; a missing attribute makes `.split` throw. -/
def rawDateFromTitle (m : Message) : Except ScrapeErr (List Char × Option (List Char)) :=
  match m.dateTitle with
  | none => .error .splitOnUndefined
  | some t => .ok (jsSplitParts (String.toList " at ") t.toList)

/-- Lines 260-265: use the `datestring`/`timestring` data attributes when
`datestring` is truthy (a nonempty string), otherwise fall back to the
`title` attribute. -/
def rawDateParts (m : Message) : Except ScrapeErr (List Char × Option (List Char)) :=
  match m.dateString with
  | some ds =>
    if ds = "" then rawDateFromTitle m
    else .ok (ds.toList, m.timeString.map String.toList)
  | none => rawDateFromTitle m

/-- The body of the `$('.message').map` callback (lines 252-282). `dateOf`
abstracts `new Date(rawDate[0])`, the locale-default parsing of the date part
into the minute timestamp of some day. Only the date computation can throw;
`likes` and `number` are built with `parseInt` in the returned object
literal, where `likes` falls back to 0 only for an empty (falsy) string and
`number` strips the first `#` from the post-number text. -/
def extractMessage (dateOf : String → Nat) (m : Message) : Except ScrapeErr PostData :=
  match rawDateParts m with
  | .error e => .error e
  | .ok (dp, tp) =>
    match tp with
    | none => .error .matchOnUndefined
    | some tp =>
      match normalizeTime (dateOf (String.mk dp)) (String.mk tp) with
      | none => .error .indexOnNullMatch
      | some date =>
        .ok { permalink := m.permalinkHref
              author := m.author
              date := date
              content := m.content
              likes := if m.ratingText = "" then some 0
                       else jsParseInt m.ratingText
              number := jsParseInt
                (String.mk (replaceFirst (String.toList "#") m.postNumberText.toList)) }

/-- The message loop of XFThread.scrape: cheerio's `.map` runs the callback
sequentially and a thrown exception propagates out of the whole loop, so a
failing message aborts the scrape with no per-item recovery. -/
def scrapeMessages (dateOf : String → Nat) (ms : List Message) :
    Except ScrapeErr (List PostData) :=
  ms.mapM (extractMessage dateOf)

/-- The properties the XFPost constructor assigns (lines 143-156): `db`,
`title`, `description`, `date`, `link` (from `options.url`), `guid`,
`author`, `likes`. The constructor never assigns `this.number` even though
scrape passes `options.number` (line 296), and it has no `url` property. -/
structure XFPost where
  title : String
  description : Option String
  date : Nat
  link : String
  guid : String
  author : Option String
  likes : Option Int
deriving DecidableEq

/-- JS string concatenation with a possibly-undefined right operand, which
stringifies `undefined` (line 291 builds `this.baseUrl + data.permalink`). -/
def jsAddStr (base : String) (v : Option String) : String :=
  base ++ (match v with | none => "undefined" | some s => s)

/-- The second `.map` of XFThread.scrape (lines 285-298): build an XFPost from
the extracted data. `options.number` is passed but dropped, because the
constructor ignores it. -/
def mkXFPost (baseUrl title url : String) (d : PostData) : XFPost :=
  { title := title
    description := d.content
    date := d.date
    link := url
    guid := jsAddStr baseUrl d.permalink
    author := d.author
    likes := d.likes }

/-- A value bound into a SQL statement by `db.runAsync`. -/
inductive SQLValue
  /-- A string binding. -/
  | s (v : String)
  /-- A numeric binding; `none` models JS NaN. -/
  | num (v : Option Int)
  /-- The ISO-8601 rendering `toISOString()` of minute timestamp `t`. -/
  | iso (t : Nat)
  /-- A JS `undefined`/`null` binding. -/
  | null
deriving DecidableEq

/-- An INSERT statement issued to sqlite. -/
structure InsertStmt where
  table : String
  columns : List String
  values : List SQLValue
deriving DecidableEq

/-- String binding of a possibly-undefined JS value. -/
def optStr : Option String → SQLValue
  | none => SQLValue.null
  | some v => SQLValue.s v

/-- First assignment to `XFPost.prototype._persistData` (lines 183-199):
INSERT INTO posts of the eight columns. `$num` binds `this.number`, which the
XFPost constructor never sets, hence `undefined`. -/
def persistDataPosts (p : XFPost) : InsertStmt :=
  { table := "posts"
    columns := ["title", "description", "date", "link", "guid", "author", "number", "likes"]
    values := [SQLValue.s p.title, optStr p.description, SQLValue.iso p.date,
               SQLValue.s p.link, SQLValue.s p.guid, optStr p.author,
               SQLValue.null, SQLValue.num p.likes] }

/-- Second assignment to `XFPost.prototype._persistData` (lines 314-322),
written under a doc comment that names `XFThread#_persistData`: INSERT INTO
threads of `$title = this.title` and `$url = this.url`. An XFPost has no
`url` property (the constructor stores `options.url` in `link`), so `$url`
binds `undefined`. -/
def persistDataThreads (p : XFPost) : InsertStmt :=
  { table := "threads"
    columns := ["title", "url"]
    values := [SQLValue.s p.title, SQLValue.null] }

/-- The constructor functions of the source. -/
inductive JSClass
  | xfPage
  | xfPost
  | xfThread
  | xfForum
deriving DecidableEq

/-- `util.inherits` calls (lines 226 and 347): XFThread and XFForum inherit
from XFPage; XFPage and XFPost have no further prototype with methods. -/
def protoParent : JSClass → Option JSClass
  | .xfThread => some .xfPage
  | .xfForum => some .xfPage
  | .xfPage => none
  | .xfPost => none

/-- The `_persistData` prototype assignments of the source, in program order:
line 183 and line 314 both target `XFPost.prototype`. -/
def persistAssignments : List (JSClass × (XFPost → InsertStmt)) :=
  [(JSClass.xfPost, persistDataPosts), (JSClass.xfPost, persistDataThreads)]

/-- The own `_persistData` property of a prototype after the whole script has
run: the last assignment targeting that class wins. -/
def ownPersistData (c : JSClass) : Option (XFPost → InsertStmt) :=
  ((persistAssignments.filter (fun a => a.1 == c)).map Prod.snd).getLast?

/-- JS property lookup of `_persistData` along the prototype chain (which has
depth at most two in this program). -/
def lookupPersistData (c : JSClass) : Option (XFPost → InsertStmt) :=
  match ownPersistData c with
  | some f => some f
  | none =>
    match protoParent c with
    | none => none
    | some par =>
      match ownPersistData par with
      | some f => some f
      | none => none

/-- XFPost#archive (lines 162-176) only calls `this._persistData()`; the
statement it issues is whatever `_persistData` resolves to on an XFPost. -/
def XFPost_archive (p : XFPost) : Option InsertStmt :=
  (lookupPersistData JSClass.xfPost).map (fun f => f p)

/-- A concrete stand-in for the abstract locale date parsing, placing every
date part at minute 0 of day 0. -/
def dayZero : String → Nat := fun _ => 0

/-- Sample message with parseable fields (rating text `"5"`). -/
def sampleMsg6 : Message :=
  { ratingText := "5", dateString := some "January 5, 2015",
    timeString := some "2:30 PM", dateTitle := none,
    permalinkHref := some "posts/9/", author := some "alice",
    content := some "hello", postNumberText := "#1" }

/-- Sample message whose rating text `"abc"` has no digit prefix. -/
def sampleMsgAbc : Message :=
  { ratingText := "abc", dateString := some "January 5, 2015",
    timeString := some "2:30 PM", dateTitle := none,
    permalinkHref := some "posts/9/", author := some "alice",
    content := some "hello", postNumberText := "#1" }

/-- Sample message carrying post number label `#1`. -/
def sampleMsg5 : Message :=
  { ratingText := "2", dateString := some "January 5, 2015",
    timeString := some "2:30 PM", dateTitle := none,
    permalinkHref := some "posts/10/", author := some "bob",
    content := some "body", postNumberText := "#1" }

/-- Sample message whose date comes from the `title` attribute and whose time
part `"noon"` does not match the time regex. -/
def sampleMsgBadTime : Message :=
  { ratingText := "", dateString := none, timeString := none,
    dateTitle := some "January 5, 2015 at noon",
    permalinkHref := some "posts/11/", author := some "carol",
    content := some "text", postNumberText := "#2" }

/-- Sample message that extracts cleanly, for sequencing with a failing one. -/
def sampleMsg9 : Message :=
  { ratingText := "1", dateString := some "January 5, 2015",
    timeString := some "11:15 AM", dateTitle := none,
    permalinkHref := some "posts/8/", author := some "dave",
    content := some "first", postNumberText := "#1" }

/-- Sample XFPost as built by scrape from `sampleMsg5`. -/
def samplePost1 : XFPost :=
  mkXFPost "https://f.example/" "Thread T" "https://f.example/index.php?threads/t.1/"
    { permalink := some "posts/10/", author := some "bob", date := 870,
      content := some "body", likes := some 2, number := some 1 }

/-- A second sample XFPost. -/
def samplePost2 : XFPost :=
  mkXFPost "https://f.example/" "T2" "https://f.example/index.php?threads/u.2/"
    { permalink := some "posts/11/", author := some "carol", date := 870,
      content := some "text", likes := some 0, number := some 2 }

deriving instance DecidableEq for Except

/-! Helper lemmas. -/

theorem pagesFetched_none (f : Nat) (lastOf : Nat → Option Nat) :
    pagesFetched f none lastOf = [] := by
  cases f <;> rfl

theorem branchTrace_none (f : Nat) (o : Nat → List Nat) (l : Nat → Option Nat) :
    branchTrace f none o l = [] := by
  cases f <;> rfl

theorem nextPage_eq_none_or_succ (p : Nat) (last : Option Nat) :
    nextPage p last = none ∨ nextPage p last = some (p + 1) := by
  unfold nextPage
  split
  · exact Or.inl rfl
  · exact Or.inr rfl

theorem pagesFetched_consecutive (f : Nat) (lastOf : Nat → Option Nat) :
    ∀ p, ∃ k, pagesFetched f (some p) lastOf = (List.range k).map (fun i => p + i) := by
  induction f with
  | zero => intro p; exact ⟨0, rfl⟩
  | succ n ih =>
    intro p
    show ∃ k, p :: pagesFetched n (nextPage p (lastOf p)) lastOf = _
    rcases nextPage_eq_none_or_succ p (lastOf p) with h | h
    · refine ⟨1, ?_⟩
      rw [h, pagesFetched_none]
      show [p] = (List.range 1).map fun i => p + i
      simp [List.range_succ]
    · rcases ih (p + 1) with ⟨k, hk⟩
      refine ⟨k + 1, ?_⟩
      rw [h, hk, List.range_succ_eq_map, List.map_cons, List.map_map]
      have hfun : ((fun i => p + i) ∘ Nat.succ) = (fun i => p + 1 + i) := by
        funext i
        show p + Nat.succ i = p + 1 + i
        omega
      rw [hfun]
      simp

theorem pagesFetched_chain (f : Nat) (lastOf : Nat → Option Nat) :
    ∀ p, List.Chain' (fun a b => b = a + 1) (pagesFetched f (some p) lastOf) := by
  induction f with
  | zero => intro p; exact List.chain'_nil
  | succ n ih =>
    intro p
    show List.Chain' _ (p :: pagesFetched n (nextPage p (lastOf p)) lastOf)
    rcases nextPage_eq_none_or_succ p (lastOf p) with h | h
    · rw [h, pagesFetched_none]
      exact List.chain'_singleton p
    · rw [h]
      cases n with
      | zero => exact List.chain'_singleton p
      | succ m =>
        have hh := ih (p + 1)
        show List.Chain' _ (p :: (p + 1) :: pagesFetched m _ lastOf)
        exact List.chain'_cons.mpr ⟨rfl, hh⟩

theorem branchTrace_page_lb (f : Nat) (o : Nat → List Nat) (l : Nat → Option Nat) :
    ∀ p e, e ∈ branchTrace f (some p) o l → p ≤ evPage e := by
  induction f with
  | zero => intro p e he; simp [branchTrace] at he
  | succ n ih =>
    intro p e he
    simp only [branchTrace, pageCycleEvents, List.mem_append, List.mem_cons,
      List.mem_map] at he
    rcases he with (rfl | ⟨i, _, rfl⟩) | he
    · exact Nat.le_refl p
    · exact Nat.le_refl p
    · rcases nextPage_eq_none_or_succ p (l p) with h | h
      · rw [h, branchTrace_none] at he
        cases he
      · rw [h] at he
        exact Nat.le_trans (Nat.le_succ p) (ih (p + 1) e he)

theorem cycle_get_fetch (p : Nat) (ord : List Nat) (j q : Nat)
    (h : (pageCycleEvents p ord).get? j = some (Ev.fetch q)) : q = p := by
  cases j with
  | zero =>
    simp only [pageCycleEvents, List.get?] at h
    cases h
    rfl
  | succ j =>
    simp only [pageCycleEvents, List.get?, List.get?_map] at h
    cases hmap : ord.get? j with
    | none => rw [hmap] at h; cases h
    | some x => rw [hmap] at h; cases h

theorem cycle_get_done (p : Nat) (ord : List Nat) (k pg i : Nat)
    (h : (pageCycleEvents p ord).get? k = some (Ev.itemDone pg i)) : pg = p := by
  cases k with
  | zero =>
    simp only [pageCycleEvents, List.get?] at h
    cases h
  | succ k =>
    simp only [pageCycleEvents, List.get?, List.get?_map] at h
    cases hmap : ord.get? k with
    | none => rw [hmap] at h; cases h
    | some x =>
      rw [hmap] at h
      cases h
      rfl

theorem branchTrace_barrier (f : Nat) (o : Nat → List Nat) (l : Nat → Option Nat) :
    ∀ p0 j k q pg i,
      (branchTrace f (some p0) o l).get? j = some (Ev.fetch q) →
      (branchTrace f (some p0) o l).get? k = some (Ev.itemDone pg i) →
      pg < q → k < j := by
  induction f with
  | zero =>
    intro p0 j k q pg i hj _ _
    simp [branchTrace] at hj
  | succ n ih =>
    intro p0 j k q pg i hj hk hpq
    rw [show branchTrace (n + 1) (some p0) o l
        = pageCycleEvents p0 (o p0) ++ branchTrace n (nextPage p0 (l p0)) o l from rfl]
      at hj hk
    by_cases hjl : j < (pageCycleEvents p0 (o p0)).length
    · -- the fetch lies inside this cycle, so q = p0
      rw [List.get?_append hjl] at hj
      have hq : q = p0 := cycle_get_fetch p0 (o p0) j q hj
      rw [hq] at hpq
      -- an itemDone of a strictly earlier page is impossible anywhere
      exfalso
      by_cases hkl : k < (pageCycleEvents p0 (o p0)).length
      · rw [List.get?_append hkl] at hk
        have := cycle_get_done p0 (o p0) k pg i hk
        omega
      · rw [List.get?_append_right (Nat.le_of_not_lt hkl)] at hk
        have hmem := List.get?_mem hk
        rcases nextPage_eq_none_or_succ p0 (l p0) with h | h
        · rw [h, branchTrace_none] at hmem
          cases hmem
        · rw [h] at hmem
          have := branchTrace_page_lb n o l (p0 + 1) _ hmem
          simp only [evPage] at this
          omega
    · rw [List.get?_append_right (Nat.le_of_not_lt hjl)] at hj
      by_cases hkl : k < (pageCycleEvents p0 (o p0)).length
      · omega
      · rw [List.get?_append_right (Nat.le_of_not_lt hkl)] at hk
        rcases nextPage_eq_none_or_succ p0 (l p0) with h | h
        · rw [h, branchTrace_none] at hj
          simp at hj
        · rw [h] at hj hk
          have := ih (p0 + 1) _ _ q pg i hj hk hpq
          omega

theorem filterMap_const_none {α β : Type} (l : List α) :
    l.filterMap (fun _ => (none : Option β)) = [] := by
  induction l with
  | nil => rfl
  | cons a l ih => simp [List.filterMap, ih]

theorem branchTrace_fetches_order_indep (f : Nat) (o o2 : Nat → List Nat)
    (l : Nat → Option Nat) :
    ∀ c, (branchTrace f c o l).filterMap fetchPageOf
      = (branchTrace f c o2 l).filterMap fetchPageOf := by
  induction f with
  | zero => intro c; rfl
  | succ n ih =>
    intro c
    cases c with
    | none => rfl
    | some p =>
      have hcyc : ∀ ord : List Nat,
          (pageCycleEvents p ord).filterMap fetchPageOf = [p] := by
        intro ord
        simp only [pageCycleEvents, List.filterMap_cons, fetchPageOf,
          List.filterMap_map]
        rw [show ((fetchPageOf ∘ Ev.itemDone p) = fun _ => (none : Option Nat)) from rfl]
        rw [filterMap_const_none]
      rw [show branchTrace (n + 1) (some p) o l
          = pageCycleEvents p (o p) ++ branchTrace n (nextPage p (l p)) o l from rfl,
        show branchTrace (n + 1) (some p) o2 l
          = pageCycleEvents p (o2 p) ++ branchTrace n (nextPage p (l p)) o2 l from rfl,
        List.filterMap_append, List.filterMap_append, hcyc (o p), hcyc (o2 p), ih]

theorem getHours_set (t0 H M : Nat) :
    getHours (setMinutes (setHours t0 H) M) = (H + M / 60) % 24 := by
  unfold getHours setMinutes setHours
  omega

theorem getMinutes_set (t0 H M : Nat) :
    getMinutes (setMinutes (setHours t0 H) M) = M % 60 := by
  unfold getMinutes setMinutes setHours
  omega

/-- PostData produced by extracting `sampleMsg6`. -/
def samplePD6 : PostData :=
  { permalink := some "posts/9/", author := some "alice", date := 870,
    content := some "hello", likes := some 5, number := some 1 }

/-! Claim theorems. -/

/-- C10: for every page fetch of any traversal branch, the request URL is
baseUrl + relativePath when the page number is 1 (no suffix), and
baseUrl + relativePath + "page-" + N when the page number N exceeds 1. -/
theorem C10_request_url (b rel : String) (n : Nat) (h : 1 < n) :
    loadUrl b rel 1 = b ++ rel
    ∧ loadUrl b rel n = b ++ rel ++ "page-" ++ toString n := by
  constructor
  · rfl
  · show (if n > 1 then (b ++ rel) ++ "page-" ++ toString n else b ++ rel) = _
    rw [if_pos h]

theorem C10_request_url_witness :
    1 < 3
    ∧ loadUrl "https://f.example/" "index.php?forums/x.12/" 1
      = "https://f.example/" ++ "index.php?forums/x.12/"
    ∧ loadUrl "https://f.example/" "index.php?forums/x.12/" 3
      = "https://f.example/" ++ "index.php?forums/x.12/" ++ "page-" ++ toString 3 :=
  ⟨by decide,
   (C10_request_url "https://f.example/" "index.php?forums/x.12/" 3 (by decide)).1,
   (C10_request_url "https://f.example/" "index.php?forums/x.12/" 3 (by decide)).2⟩

/-- C3: after extracting a page, if the PageNav last-page indicator is absent
or the current page number equals it, the next cursor is null (Terminal); and
a branch whose cursor is null issues no further fetch (it is done). -/
theorem C3_terminal_no_further_fetch (p : Nat) (last : Option Nat) (f : Nat)
    (lastOf : Nat → Option Nat) (o : Nat → List Nat)
    (h : last = none ∨ last = some p) :
    nextPage p last = none
    ∧ pagesFetched f none lastOf = []
    ∧ branchTrace f none o lastOf = [] := by
  refine ⟨?_, pagesFetched_none f lastOf, branchTrace_none f o lastOf⟩
  unfold nextPage
  rw [if_pos h]

theorem C3_terminal_no_further_fetch_witness :
    ((some 3 : Option Nat) = none ∨ (some 3 : Option Nat) = some 3)
    ∧ (nextPage 3 (some 3) = none
       ∧ pagesFetched 5 none (fun _ => some 9) = []
       ∧ branchTrace 5 none (fun _ => [0]) (fun _ => some 9) = []) :=
  ⟨Or.inr rfl,
   C3_terminal_no_further_fetch 3 (some 3) 5 (fun _ => some 9) (fun _ => [0])
     (Or.inr rfl)⟩

/-- C8: the page numbers fetched by one traversal branch form the consecutive
sequence start, start+1, start+2, ... where start is the configured start
page (`options.page || 1`, default 1); the sequence is strictly increasing by
exactly 1 each cycle and contains no repeats. -/
theorem C8_fetched_pages_consecutive (f : Nat) (opt : Option Nat)
    (lastOf : Nat → Option Nat) :
    (∃ k, pagesFetched f (some (initPage opt)) lastOf
        = (List.range k).map (fun i => initPage opt + i))
    ∧ (pagesFetched f (some (initPage opt)) lastOf).Nodup
    ∧ List.Chain' (fun a b => b = a + 1) (pagesFetched f (some (initPage opt)) lastOf)
    ∧ initPage none = 1
    ∧ (∀ n, initPage (some (n + 1)) = n + 1) := by
  obtain ⟨k, hk⟩ := pagesFetched_consecutive f lastOf (initPage opt)
  refine ⟨⟨k, hk⟩, ?_, pagesFetched_chain f lastOf (initPage opt), rfl, fun n => rfl⟩
  rw [hk]
  have hinj : Function.Injective (fun i => initPage opt + i) := by
    intro a b hab
    simpa using hab
  exact List.Nodup.map hinj (List.nodup_range k)

/-- C7: in any traversal branch, every item archival completion belonging to
an earlier page precedes the fetch of any later page, for every completion
order of the page's items; and the fetched-page sequence is independent of
the items' completion order. -/
theorem C7_page_cycle_barrier (f s : Nat) (o o2 : Nat → List Nat)
    (l : Nat → Option Nat) (j k q pg i : Nat)
    (hj : (branchTrace f (some s) o l).get? j = some (Ev.fetch q))
    (hk : (branchTrace f (some s) o l).get? k = some (Ev.itemDone pg i))
    (hpq : pg < q) :
    k < j
    ∧ (branchTrace f (some s) o l).filterMap fetchPageOf
      = (branchTrace f (some s) o2 l).filterMap fetchPageOf :=
  ⟨branchTrace_barrier f o l s j k q pg i hj hk hpq,
   branchTrace_fetches_order_indep f o o2 l (some s)⟩

theorem C7_page_cycle_barrier_witness :
    2 < 3
    ∧ (branchTrace 2 (some 1) (fun _ => [1, 0]) (fun _ => some 5)).filterMap fetchPageOf
      = (branchTrace 2 (some 1) (fun _ => [0, 1]) (fun _ => some 5)).filterMap fetchPageOf :=
  C7_page_cycle_barrier 2 1 (fun _ => [1, 0]) (fun _ => [0, 1]) (fun _ => some 5)
    3 2 2 1 0 (by decide) (by decide) (by decide)

/-- C4 as stated is false: the time part "12:30 PM" matches the pattern with
parsed hour 12 and meridiem PM, but the normalized timestamp's hour is 0, not
12 + 12 = 24, because setHours rolls hour values of 24 or more into the next
day. -/
theorem C4_counterexample_twelve_pm :
    findTimeMatch ("12:30 PM".toList)
      = some (['1', '2'], ['3', '0'], ['P', 'M'])
    ∧ hasAmCI ['P', 'M'] = false
    ∧ (normalizeTime 0 "12:30 PM").map getHours = some 0
    ∧ ¬ (normalizeTime 0 "12:30 PM").map getHours = some (12 + 12) :=
  ⟨by decide, by decide, by decide, by decide⟩

/-- C4 (amended): for every time part matching the pattern, the normalized
hour is (converted hour + minute carry) modulo 24 — where the converted hour
is the parsed hour for AM and the parsed hour plus 12 for PM — and the
normalized minute is the parsed minute modulo 60. For inputs whose converted
hour is below 24 and minute below 60, such as "2:30 PM" (hour 14, minute 30)
and "11:15 AM" (hour 11, minute 15), this equals the claim's values. -/
theorem C4_time_conversion_amended (t0 : Nat) (s : String) (h m w : List Char)
    (hm : findTimeMatch s.toList = some (h, m, w)) :
    (normalizeTime t0 s).map getHours
      = some ((convertHour (digitsToNat h) w + digitsToNat m / 60) % 24)
    ∧ (normalizeTime t0 s).map getMinutes = some (digitsToNat m % 60) := by
  unfold normalizeTime
  rw [hm]
  exact ⟨congrArg some (getHours_set t0 (convertHour (digitsToNat h) w) (digitsToNat m)),
         congrArg some (getMinutes_set t0 (convertHour (digitsToNat h) w) (digitsToNat m))⟩

theorem C4_time_conversion_amended_witness :
    (normalizeTime 0 "2:30 PM").map getHours = some 14
    ∧ (normalizeTime 0 "2:30 PM").map getMinutes = some 30
    ∧ (normalizeTime 0 "11:15 AM").map getHours = some 11
    ∧ (normalizeTime 0 "11:15 AM").map getMinutes = some 15 := by
  have h1 := C4_time_conversion_amended 0 "2:30 PM" ['2'] ['3', '0'] ['P', 'M']
    (by decide)
  have h2 := C4_time_conversion_amended 0 "11:15 AM" ['1', '1'] ['1', '5'] ['A', 'M']
    (by decide)
  refine ⟨?_, ?_, ?_, ?_⟩
  · rw [h1.1]; decide
  · rw [h1.2]; decide
  · rw [h2.1]; decide
  · rw [h2.2]; decide

/-- C6 as stated is false: for the nonempty, digit-free rating text "abc" the
extracted likes value is NaN (the parseInt failure value), not 0. -/
theorem C6_counterexample_unparsable :
    (extractMessage dayZero sampleMsgAbc).map PostData.likes = .ok none
    ∧ jsParseInt "abc" = none
    ∧ ¬ (extractMessage dayZero sampleMsgAbc).map PostData.likes = .ok (some 0) :=
  ⟨rfl, rfl, by decide⟩

/-- C6 (amended): the extracted likes value is parseInt of the rating
element's text whenever that text is nonempty — hence NaN, not 0, when the
text has no leading integer — and defaults to 0 exactly when the text is
empty (the element is absent). -/
theorem C6_likes_amended (dateOf : String → Nat) (m : Message) (d : PostData)
    (hok : extractMessage dateOf m = .ok d) :
    (m.ratingText = "" → d.likes = some 0)
    ∧ (m.ratingText ≠ "" → d.likes = jsParseInt m.ratingText) := by
  unfold extractMessage at hok
  split at hok
  · exact Except.noConfusion hok
  · split at hok
    · exact Except.noConfusion hok
    · split at hok
      · exact Except.noConfusion hok
      · cases hok
        constructor
        · intro he
          show (if m.ratingText = "" then some 0 else jsParseInt m.ratingText) = some 0
          rw [if_pos he]
        · intro hne
          show (if m.ratingText = "" then some 0 else jsParseInt m.ratingText)
            = jsParseInt m.ratingText
          rw [if_neg hne]

theorem C6_likes_amended_witness :
    extractMessage dayZero sampleMsg6 = .ok samplePD6
    ∧ sampleMsg6.ratingText ≠ ""
    ∧ samplePD6.likes = jsParseInt sampleMsg6.ratingText :=
  ⟨rfl, by decide,
   (C6_likes_amended dayZero sampleMsg6 samplePD6 rfl).2 (by decide)⟩

/-- C1 fails in the code: `XFThread.prototype._persistData` is never
assigned (line 314 assigns to XFPost.prototype under an XFThread doc
comment), so the lookup on an XFThread resolves to nothing — which makes
`this._persistData.bind(this)` in XFThread#archive throw a TypeError — while
every post's archival action issues the thread-table insert instead. -/
theorem C1_thread_persistence_broken :
    lookupPersistData JSClass.xfThread = none
    ∧ XFPost_archive samplePost1 = some (persistDataThreads samplePost1)
    ∧ (persistDataThreads samplePost1).table = "threads" :=
  ⟨rfl, rfl, rfl⟩

/-- C2 fails in the code: after the second prototype assignment, a post's
archival action inserts (title, url = NULL) into the threads table; it never
writes the eight-field record into posts. -/
theorem C2_post_persist_targets_threads :
    lookupPersistData JSClass.xfPost = some persistDataThreads
    ∧ XFPost_archive samplePost2
      = some { table := "threads", columns := ["title", "url"],
               values := [SQLValue.s "T2", SQLValue.null] }
    ∧ ("threads" : String) ≠ "posts" :=
  ⟨rfl, rfl, by decide⟩

/-- C5 fails in the code: scrape parses post number 1 from the label "#1"
and passes it to the XFPost constructor, but the constructor never assigns
`this.number`; the persistence that actually runs is the threads insert with
no number at all, and even the overwritten posts insert would bind NULL for
`$num`. -/
theorem C5_number_never_persisted :
    (extractMessage dayZero sampleMsg5).map PostData.number = .ok (some 1)
    ∧ XFPost_archive samplePost1
      = some { table := "threads", columns := ["title", "url"],
               values := [SQLValue.s "Thread T", SQLValue.null] }
    ∧ (persistDataPosts samplePost1).values.get? 6 = some SQLValue.null :=
  ⟨rfl, rfl, rfl⟩

/-- C9: a time part that does not match the pattern makes the message
extraction fail (the TypeError from indexing the null match result) with no
local recovery, aborting the whole page scrape; but the code severs the
claimed propagation to the top level, because XFThread#archive itself throws
a TypeError first — `_persistData` does not resolve on an XFThread — so the
run aborts for every input and the date ParseError is never the error that
reaches the top-level invocation. -/
theorem C9_parse_failure_evaluation :
    extractMessage dayZero sampleMsgBadTime = .error ScrapeErr.indexOnNullMatch
    ∧ scrapeMessages dayZero [sampleMsg9, sampleMsgBadTime]
      = .error ScrapeErr.indexOnNullMatch
    ∧ findTimeMatch ("noon".toList) = none
    ∧ lookupPersistData JSClass.xfThread = none :=
  ⟨rfl, rfl, rfl, rfl⟩

end XFScraper
